import Mathlib

/-
Verification of the datagram transport unit (libs/hbb_common/src/udp.rs).

Shallow embedding conventions:
- Asynchronous effects are made explicit: each operation takes the outcome the
  environment would produce (the next item of the underlying stream, the result
  of an OS write, the handshake result) as a parameter and is otherwise a pure
  function of the socket state.
- Socket-option side effects of the constructors are recorded as a trace of
  abstract socket operations, in execution order, so that statements about
  which options are set and when a fatal assertion fires can be expressed.
- Machine strings and byte buffers are Lean String and List Nat.
-/

namespace Udp

/-- An IPv4 address as four octets, mirroring std::net::Ipv4Addr. -/
structure Ipv4Addr where
  o0 : Nat
  o1 : Nat
  o2 : Nat
  o3 : Nat
deriving DecidableEq

/-- Ipv4Addr::is_multicast from the Rust standard library: the first octet lies
in 224 ..= 239. -/
def Ipv4Addr.is_multicast (ip : Ipv4Addr) : Bool :=
  decide (224 ≤ ip.o0 ∧ ip.o0 ≤ 239)

/-- std::net::SocketAddrV4: an IPv4 address and a port. -/
structure SocketAddrV4 where
  ip : Ipv4Addr
  port : Nat
deriving DecidableEq

/-- std::net::SocketAddrV6, kept abstract: only its family matters here. -/
structure SocketAddrV6 where
  addrBits : Nat
  port : Nat
deriving DecidableEq

/-- std::net::SocketAddr. -/
inductive SocketAddr
  | v4 : SocketAddrV4 → SocketAddr
  | v6 : SocketAddrV6 → SocketAddr
deriving DecidableEq

/-- An opaque byte payload. -/
abbrev Bytes := List Nat

/-- tokio_socks::TargetAddr: either a concrete IP endpoint or a domain name
with a port, the latter resolved by the relay rather than locally. -/
inductive TargetAddr
  | ip : SocketAddr → TargetAddr
  | domain : String → Nat → TargetAddr
deriving DecidableEq

/-- The error values this unit can surface to callers (all become
anyhow::Error in the source; the constructor records which site produced it). -/
inductive UdpError
  | ioError : String → UdpError
  | serError : String → UdpError
  | addrError : String → UdpError
  | resolution : UdpError
  | timeout : UdpError
  | proxy : String → UdpError
deriving DecidableEq

/-- The state of a Direct-mode socket visible to this unit: its bound local
address (the UdpFramed and BytesCodec hold no further state this unit reads). -/
structure DirectSock where
  local_addr : SocketAddr
deriving DecidableEq

/-- The state of a Socks5UdpFramed session visible to this unit. -/
structure ProxySock where
  local_addr : SocketAddr
  socks_addr : SocketAddr
deriving DecidableEq

/-- pub enum FramedSocket: the mode-polymorphic transport. -/
inductive FramedSocket
  | Direct : DirectSock → FramedSocket
  | ProxySocks : ProxySock → FramedSocket
deriving DecidableEq

/-- The two variants as a tag, for stating the mode invariant. -/
inductive Mode
  | direct
  | proxy
deriving DecidableEq

/-- The variant tag of a FramedSocket. -/
def FramedSocket.mode : FramedSocket → Mode
  | .Direct _ => .direct
  | .ProxySocks _ => .proxy

/-- The next item the underlying UdpFramed stream would yield in Direct mode:
closed stream, a datagram with its OS-reported source address, or an I/O
error. -/
inductive DirectEvent
  | closed
  | frame : Bytes → SocketAddr → DirectEvent
  | ioErr : String → DirectEvent
deriving DecidableEq

/-- The next item the Socks5UdpFramed stream would yield in proxy mode: closed
stream, a relay envelope (payload, envelope address of the original sender,
and the relay address recv_from reported), or an I/O error. -/
inductive ProxyEvent
  | closed
  | frame : Bytes → TargetAddr → SocketAddr → ProxyEvent
  | ioErr : String → ProxyEvent
deriving DecidableEq

/-- tokio_socks: IntoTargetAddr for SocketAddr is infallible and produces
TargetAddr::Ip of the address itself. -/
def SocketAddr.into_target_addr (a : SocketAddr) : Except UdpError TargetAddr :=
  .ok (.ip a)

/-- FramedSocket::next. The Direct arm converts the OS source address with
into_target_addr (the ok()? propagates a conversion failure as None); the
ProxySocks arm returns the envelope data and its dst_addr, discarding the
relay address. Errors of either stream are wrapped with anyhow and returned
as Some(Err). The mutable receiver is returned unchanged. -/
def FramedSocket.next (s : FramedSocket) (dev : DirectEvent) (pev : ProxyEvent) :
    Option (Except UdpError (Bytes × TargetAddr)) × FramedSocket :=
  match s with
  | .Direct f =>
    ((match dev with
      | .frame data addr =>
        match addr.into_target_addr with
        | .ok t => some (.ok (data, t))
        | .error _ => none
      | .ioErr e => some (.error (.ioError e))
      | .closed => none),
     .Direct f)
  | .ProxySocks f =>
    ((match pev with
      | .frame data dst _relay => some (.ok (data, dst))
      | .ioErr e => some (.error (.ioError e))
      | .closed => none),
     .ProxySocks f)

/-- FramedSocket::next_timeout: tokio::time::timeout racing self.next against
a deadline of ms milliseconds. The elapsed flag says whether the deadline won
the race; in that case the result is None and the pending next is dropped,
leaving the socket as it was. -/
def FramedSocket.next_timeout (s : FramedSocket) (_ms : Nat) (elapsed : Bool)
    (dev : DirectEvent) (pev : ProxyEvent) :
    Option (Except UdpError (Bytes × TargetAddr)) × FramedSocket :=
  if elapsed then (none, s) else s.next dev pev

/-- An abstract protobuf message: all this unit observes of it is the outcome
of write_to_bytes. -/
structure Message where
  write_to_bytes : Except String Bytes

/-- The observable outcome of send and send_raw: the single datagram handed to
the backend (payload and target), a recoverable error, or the fatal
unreachable branch. -/
inductive SendOutcome
  | sent : Bytes → TargetAddr → SendOutcome
  | err : UdpError → SendOutcome
  | fatal : SendOutcome
deriving DecidableEq

/-- FramedSocket::send. The target is resolved first (into_target_addr, its
failure surfacing as a recoverable error), the message serialized next
(write_to_bytes, also recoverable), then the backend match runs: Direct
accepts only TargetAddr::Ip and hits unreachable on any other form;
ProxySocks forwards any target. The io parameter is the outcome the backend
write would produce. -/
def FramedSocket.send (s : FramedSocket) (msg : Message)
    (addr : Except String TargetAddr) (io : Except String Unit) :
    SendOutcome × FramedSocket :=
  match addr with
  | .error e => (.err (.addrError e), s)
  | .ok addr =>
    match msg.write_to_bytes with
    | .error e => (.err (.serError e), s)
    | .ok send_data =>
      match s with
      | .Direct f =>
        ((match addr with
          | .ip a =>
            (match io with
             | .ok _ => .sent send_data (.ip a)
             | .error e => .err (.ioError e))
          | _ => .fatal),
         .Direct f)
      | .ProxySocks f =>
        ((match io with
          | .ok _ => .sent send_data addr
          | .error e => .err (.ioError e)),
         .ProxySocks f)

/-- FramedSocket::send_raw: identical to send except the payload is already a
byte buffer, so no serialization step exists. -/
def FramedSocket.send_raw (s : FramedSocket) (msg : Bytes)
    (addr : Except String TargetAddr) (io : Except String Unit) :
    SendOutcome × FramedSocket :=
  match addr with
  | .error e => (.err (.addrError e), s)
  | .ok addr =>
    match s with
    | .Direct f =>
      ((match addr with
        | .ip a =>
          (match io with
           | .ok _ => .sent msg (.ip a)
           | .error e => .err (.ioError e))
        | _ => .fatal),
       .Direct f)
    | .ProxySocks f =>
      ((match io with
        | .ok _ => .sent msg addr
        | .error e => .err (.ioError e)),
       .ProxySocks f)

/-- The socket address family chosen by new_socket. -/
inductive SockDomain
  | ipv4
  | ipv6
deriving DecidableEq

/-- Abstract socket2 operations, recorded in execution order. -/
inductive SockOp
  | newSock : SockDomain → SockOp
  | setReusePort : SockOp
  | setReuseAddress : SockOp
  | setReadTimeoutMs : Nat → SockOp
  | joinMulticastV4 : Ipv4Addr → Ipv4Addr → SockOp
  | setMulticastLoopV4 : Bool → SockOp
  | setMulticastIfV4 : Ipv4Addr → SockOp
  | bindTo : SocketAddr → SockOp
deriving DecidableEq

/-- The platform-conditional compilation flag: cfg(unix) has a distinct
reuse_port socket option, other platforms do not. -/
structure Platform where
  isUnix : Bool
deriving DecidableEq

/-- The address family selected from the form of a local address. -/
def SocketAddr.addrDomain : SocketAddr → SockDomain
  | .v4 _ => .ipv4
  | .v6 _ => .ipv6

/-- fn new_socket(addr, reuse): creates a datagram socket of the family of
addr; when reuse is requested sets reuse_port (under cfg(unix) only) and
reuse_address; then binds to addr. The trace records the operations in
order. -/
def new_socket (p : Platform) (addr : SocketAddr) (reuse : Bool) : List SockOp :=
  [SockOp.newSock addr.addrDomain]
    ++ (if reuse then
          (if p.isUnix then [SockOp.setReusePort] else []) ++ [SockOp.setReuseAddress]
        else [])
    ++ [SockOp.bindTo addr]

/-- FramedSocket::new_reuse: iterates the resolved candidate addresses but
returns inside the first loop iteration, binding only the first candidate
with reuse enabled; an empty candidate list reaches the bail. The second
component is the socket-operation trace performed. -/
def FramedSocket.new_reuse (p : Platform) (addrs : List SocketAddr) :
    Except UdpError FramedSocket × List SockOp :=
  match addrs with
  | [] => (.error .resolution, [])
  | addr :: _ => (.ok (.Direct ⟨addr⟩), new_socket p addr true)

/-- str::trim().is_empty() on a string: true exactly when every character is
whitespace, that is, the string is empty or blank. Stated over the character
content, which is what trimming observes. -/
def trim_is_empty (s : String) : Bool :=
  s.data.all Char.isWhitespace

/-- The authentication shape of the SOCKS5 handshake new_proxy performs. -/
inductive AuthMode
  | noAuth
  | withPassword : String → String → AuthMode
deriving DecidableEq

/-- What the environment would do for a Socks5UdpFramed connect attempt:
whether the caller-supplied deadline elapses first, and otherwise the
negotiation result. -/
structure HandshakeEnv where
  timedOut : Bool
  result : Except String ProxySock

/-- FramedSocket::new_proxy: chooses unauthenticated connect when the trimmed
username is empty and password-authenticated connect otherwise; the whole
handshake runs under super::timeout(ms_timeout, ..), whose elapse surfaces as
a timeout error, while a completed-but-failed negotiation surfaces as the
proxy error. The second component reports which handshake was performed. -/
def FramedSocket.new_proxy (username password : String) (_ms_timeout : Nat)
    (env : HandshakeEnv) : Except UdpError FramedSocket × AuthMode :=
  let mode := if trim_is_empty username then AuthMode.noAuth
              else AuthMode.withPassword username password
  let framed : Except UdpError ProxySock :=
    if env.timedOut then .error .timeout
    else
      match env.result with
      | .ok f => .ok f
      | .error e => .error (.proxy e)
  match framed with
  | .ok f => (.ok (.ProxySocks f), mode)
  | .error e => (.error e, mode)

/-- The outcome of bind_multicast: either the assertion failed (aborting the
process) or a Direct-mode transport was produced. -/
inductive MulticastResult
  | asserted : String → MulticastResult
  | ok : FramedSocket → MulticastResult
deriving DecidableEq

/-- The all-zero wildcard IPv4 address. -/
def wildcard : Ipv4Addr := ⟨0, 0, 0, 0⟩

/-- pub fn bind_multicast(maddr): creates an IPv4 datagram socket, sets
reuse_address, sets a 100 ms read timeout; then, when a group address is
given, asserts it is multicast (aborting otherwise), joins the group on the
wildcard interface, enables loopback, and binds the wildcard address at the
group port; with no group address it sets the outbound multicast interface to
the wildcard and binds an ephemeral port. The first component is the
socket-operation trace executed before the function returned or aborted. -/
def bind_multicast (maddr : Option SocketAddrV4) : List SockOp × MulticastResult :=
  let pre : List SockOp :=
    [SockOp.newSock .ipv4, SockOp.setReuseAddress, SockOp.setReadTimeoutMs 100]
  match maddr with
  | some maddr =>
    if maddr.ip.is_multicast then
      let addr : SocketAddrV4 := ⟨wildcard, maddr.port⟩
      (pre ++ [SockOp.joinMulticastV4 maddr.ip wildcard,
               SockOp.setMulticastLoopV4 true,
               SockOp.bindTo (.v4 addr)],
       .ok (.Direct ⟨.v4 addr⟩))
    else
      (pre, .asserted "Must be multcast address")
  | none =>
    (pre ++ [SockOp.setMulticastIfV4 wildcard,
             SockOp.bindTo (.v4 ⟨wildcard, 0⟩)],
     .ok (.Direct ⟨.v4 ⟨wildcard, 0⟩⟩))

/-- Claim C1: for every Transport, receive returns None exactly when the
underlying stream of the active mode is permanently closed; an I/O error of
the underlying transport comes back as Some(Err(..)), and the Transport state
the call hands back is the one it was given, so subsequent receive calls
remain possible. -/
theorem c1_next_none_iff_closed (s : FramedSocket) (dev : DirectEvent) (pev : ProxyEvent) :
    ((s.next dev pev).1 = none ↔
      ((s.mode = .direct ∧ dev = .closed) ∨ (s.mode = .proxy ∧ pev = .closed))) ∧
    (∀ e, s.mode = .direct → dev = .ioErr e →
      (s.next dev pev).1 = some (.error (.ioError e))) ∧
    (∀ e, s.mode = .proxy → pev = .ioErr e →
      (s.next dev pev).1 = some (.error (.ioError e))) ∧
    (s.next dev pev).2 = s := by
  cases s <;> cases dev <;> cases pev <;>
    simp [FramedSocket.next, FramedSocket.mode, SocketAddr.into_target_addr]

/-- Witness for C1 at a concrete closed Direct stream. -/
theorem c1_next_none_iff_closed_witness :
    ((FramedSocket.Direct ⟨.v4 ⟨⟨127, 0, 0, 1⟩, 9⟩⟩).next .closed .closed).1 = none := by
  have h := c1_next_none_iff_closed (.Direct ⟨.v4 ⟨⟨127, 0, 0, 1⟩, 9⟩⟩) .closed .closed
  exact h.1.mpr (Or.inl ⟨rfl, rfl⟩)

/-- Claim C3: for every received datagram, ProxyRelay mode returns the
endpoint reported by the relay envelope, independent of the relay address the
OS reported, while Direct mode returns the IP endpoint taken from the OS. -/
theorem c3_next_source_endpoint (d : DirectSock) (p : ProxySock)
    (dev : DirectEvent) (pev : ProxyEvent)
    (data : Bytes) (osAddr : SocketAddr) (dst : TargetAddr) (relay relay' : SocketAddr) :
    ((FramedSocket.Direct d).next (.frame data osAddr) pev).1
      = some (.ok (data, .ip osAddr)) ∧
    ((FramedSocket.ProxySocks p).next dev (.frame data dst relay)).1
      = some (.ok (data, dst)) ∧
    ((FramedSocket.ProxySocks p).next dev (.frame data dst relay)).1
      = ((FramedSocket.ProxySocks p).next dev (.frame data dst relay')).1 := by
  refine ⟨rfl, rfl, rfl⟩

/-- Claim C4: receive_with_timeout returns None when the deadline elapses
before receive completes, leaving the socket as it was; when receive completes
first its result is returned unchanged. -/
theorem c4_next_timeout_spec (s : FramedSocket) (ms : Nat)
    (dev : DirectEvent) (pev : ProxyEvent) :
    s.next_timeout ms true dev pev = (none, s) ∧
    s.next_timeout ms false dev pev = s.next dev pev := by
  exact ⟨rfl, rfl⟩

/-- Claim C9: no operation migrates a Transport to the other variant: send,
send_raw, next and next_timeout all hand back a socket of the mode they were
given. -/
theorem c9_mode_preserved (s : FramedSocket) (msg : Message) (raw : Bytes)
    (addr : Except String TargetAddr) (io : Except String Unit)
    (ms : Nat) (elapsed : Bool) (dev : DirectEvent) (pev : ProxyEvent) :
    ((s.send msg addr io).2).mode = s.mode ∧
    ((s.send_raw raw addr io).2).mode = s.mode ∧
    ((s.next dev pev).2).mode = s.mode ∧
    ((s.next_timeout ms elapsed dev pev).2).mode = s.mode := by
  obtain ⟨wb⟩ := msg
  cases s <;> cases addr <;> cases wb <;> cases elapsed <;> cases dev <;> cases pev <;>
    simp [FramedSocket.send, FramedSocket.send_raw, FramedSocket.next,
      FramedSocket.next_timeout, FramedSocket.mode]

/-- Counterexample to claim C5 as stated: a Direct-mode send whose target
resolved to a domain endpoint but whose message fails to serialize returns a
recoverable serialization error, because write_to_bytes runs before the
backend match — the operation is not fatal on every such call. -/
theorem c5_send_domain_counterexample :
    ((FramedSocket.Direct ⟨.v4 ⟨⟨127, 0, 0, 1⟩, 9⟩⟩).send ⟨.error "required field"⟩
        (.ok (.domain "example.com" 80)) (.ok ())).1
      = .err (.serError "required field") ∧
    ((FramedSocket.Direct ⟨.v4 ⟨⟨127, 0, 0, 1⟩, 9⟩⟩).send ⟨.error "required field"⟩
        (.ok (.domain "example.com" 80)) (.ok ())).1
      ≠ SendOutcome.fatal := by
  exact ⟨rfl, by decide⟩

/-- Claim C5 as amended: on a Direct-mode Transport a domain-name target makes
send_raw unconditionally fatal, and makes send fatal whenever serialization
succeeds (a serialization failure is reported as a recoverable error before
the target form is examined); under the precondition that the target resolves
to an IP endpoint the fatal branch is never taken by either operation. -/
theorem c5_send_direct_domain_fatal (d : DirectSock) (msg : Message) (b raw : Bytes)
    (host : String) (port : Nat) (a : SocketAddr) (io : Except String Unit) :
    ((FramedSocket.Direct d).send_raw raw (.ok (.domain host port)) io).1
      = SendOutcome.fatal ∧
    (msg.write_to_bytes = .ok b →
      ((FramedSocket.Direct d).send msg (.ok (.domain host port)) io).1
        = SendOutcome.fatal) ∧
    ((FramedSocket.Direct d).send msg (.ok (.ip a)) io).1 ≠ SendOutcome.fatal ∧
    ((FramedSocket.Direct d).send_raw raw (.ok (.ip a)) io).1 ≠ SendOutcome.fatal := by
  obtain ⟨wb⟩ := msg
  cases wb <;> cases io <;>
    simp [FramedSocket.send, FramedSocket.send_raw]

/-- Witness for C5 at concrete inputs: the fatal branch taken on a concrete
domain-target send with a successfully serialized message. -/
theorem c5_send_direct_domain_fatal_witness :
    ((FramedSocket.Direct ⟨.v4 ⟨⟨127, 0, 0, 1⟩, 9⟩⟩).send ⟨.ok [1, 2]⟩
        (.ok (.domain "rustdesk.com" 21116)) (.ok ())).1
      = SendOutcome.fatal := by
  have h := c5_send_direct_domain_fatal ⟨.v4 ⟨⟨127, 0, 0, 1⟩, 9⟩⟩ ⟨.ok [1, 2]⟩
    [1, 2] [3] "rustdesk.com" 21116 (.v4 ⟨⟨127, 0, 0, 1⟩, 9⟩) (.ok ())
  exact h.2.1 rfl

/-- Claim C10: send is observably equivalent to send_raw on the serialized
bytes: whenever write_to_bytes yields b, send of the message and send_raw of
b resolve the target identically, hand the backend the same single datagram,
surface the same errors and return the same socket state. -/
theorem c10_send_eq_send_raw (s : FramedSocket) (msg : Message) (b : Bytes)
    (addr : Except String TargetAddr) (io : Except String Unit)
    (h : msg.write_to_bytes = .ok b) :
    s.send msg addr io = s.send_raw b addr io := by
  obtain ⟨wb⟩ := msg
  simp only at h
  subst h
  cases addr <;> cases s <;>
    simp [FramedSocket.send, FramedSocket.send_raw]

/-- Witness for C10 at a concrete message and target. -/
theorem c10_send_eq_send_raw_witness :
    (FramedSocket.Direct ⟨.v4 ⟨⟨127, 0, 0, 1⟩, 8080⟩⟩).send ⟨.ok [7, 7]⟩
        (.ok (.ip (.v4 ⟨⟨8, 8, 8, 8⟩, 53⟩))) (.ok ())
      = (FramedSocket.Direct ⟨.v4 ⟨⟨127, 0, 0, 1⟩, 8080⟩⟩).send_raw [7, 7]
          (.ok (.ip (.v4 ⟨⟨8, 8, 8, 8⟩, 53⟩))) (.ok ()) :=
  c10_send_eq_send_raw (.Direct ⟨.v4 ⟨⟨127, 0, 0, 1⟩, 8080⟩⟩) ⟨.ok [7, 7]⟩ [7, 7]
    (.ok (.ip (.v4 ⟨⟨8, 8, 8, 8⟩, 53⟩))) (.ok ()) rfl

/-- Claim C7: reuse-bind fails with the resolution error on an empty candidate
list and otherwise binds exactly the first candidate with reuse enabled; no
other candidate is ever bound. -/
theorem c7_new_reuse_spec (p : Platform) (a : SocketAddr) (rest : List SocketAddr) :
    FramedSocket.new_reuse p [] = (.error .resolution, []) ∧
    FramedSocket.new_reuse p (a :: rest) = (.ok (.Direct ⟨a⟩), new_socket p a true) ∧
    (∀ b, SockOp.bindTo b ∈ (FramedSocket.new_reuse p (a :: rest)).2 → b = a) := by
  refine ⟨rfl, rfl, ?_⟩
  intro b hb
  obtain ⟨u⟩ := p
  cases u <;> simp [FramedSocket.new_reuse, new_socket] at hb <;> exact hb

/-- Witness for C7 at a concrete candidate list. -/
theorem c7_new_reuse_spec_witness :
    FramedSocket.new_reuse ⟨true⟩ [.v4 ⟨⟨0, 0, 0, 0⟩, 21116⟩]
      = (.ok (.Direct ⟨.v4 ⟨⟨0, 0, 0, 0⟩, 21116⟩⟩),
         new_socket ⟨true⟩ (.v4 ⟨⟨0, 0, 0, 0⟩, 21116⟩) true) ∧
    (SocketAddr.v4 ⟨⟨0, 0, 0, 0⟩, 21116⟩) = .v4 ⟨⟨0, 0, 0, 0⟩, 21116⟩ := by
  have h := c7_new_reuse_spec ⟨true⟩ (.v4 ⟨⟨0, 0, 0, 0⟩, 21116⟩) []
  exact ⟨h.2.1, h.2.2 (.v4 ⟨⟨0, 0, 0, 0⟩, 21116⟩) (by decide)⟩

/-- Claim C8: with reuse requested the factory enables reuse_port and
reuse_address on unix and only reuse_address elsewhere; without reuse neither
option is set; in every case the socket of the address family of the local
address is created first and bound to that address last. -/
theorem c8_new_socket_spec (addr : SocketAddr) (p : Platform) :
    new_socket ⟨true⟩ addr true
      = [.newSock addr.addrDomain, .setReusePort, .setReuseAddress, .bindTo addr] ∧
    new_socket ⟨false⟩ addr true
      = [.newSock addr.addrDomain, .setReuseAddress, .bindTo addr] ∧
    new_socket p addr false
      = [.newSock addr.addrDomain, .bindTo addr] := by
  exact ⟨rfl, rfl, rfl⟩

/-- Counterexample to claim C2 as stated: at the concrete non-multicast group
address 1.2.3.4:5 the assertion does abort the factory, but the executed
trace already contains the socket creation (and the reuse-address and
read-timeout configuration), so the abort does not happen before any socket
is created. -/
theorem c2_bind_multicast_counterexample :
    (bind_multicast (some ⟨⟨1, 2, 3, 4⟩, 5⟩)).2 = .asserted "Must be multcast address" ∧
    SockOp.newSock .ipv4 ∈ (bind_multicast (some ⟨⟨1, 2, 3, 4⟩, 5⟩)).1 := by
  exact ⟨rfl, by decide⟩

/-- Claim C2 as amended: a non-multicast group address makes the factory abort
with a fatal assertion failure before the group is joined and before any bind
occurs, though after the raw socket has been created and configured with
reuse-address and the 100 ms read timeout. -/
theorem c2_bind_multicast_assert (m : SocketAddrV4)
    (h : m.ip.is_multicast = false) :
    bind_multicast (some m)
      = ([SockOp.newSock .ipv4, SockOp.setReuseAddress, SockOp.setReadTimeoutMs 100],
         .asserted "Must be multcast address") ∧
    (∀ g i, SockOp.joinMulticastV4 g i ∉ (bind_multicast (some m)).1) ∧
    (∀ a, SockOp.bindTo a ∉ (bind_multicast (some m)).1) := by
  refine ⟨?_, ?_, ?_⟩ <;> simp [bind_multicast, h]

/-- Witness for C2 at a concrete non-multicast address. -/
theorem c2_bind_multicast_assert_witness :
    (bind_multicast (some ⟨⟨2, 3, 4, 5⟩, 6⟩)).2 = .asserted "Must be multcast address" := by
  have h := c2_bind_multicast_assert ⟨⟨2, 3, 4, 5⟩, 6⟩ (by decide)
  rw [h.1]

/-- Claim C6: the proxy constructor performs the unauthenticated handshake
exactly when the trimmed username is empty and the password-authenticated one
otherwise; elapse of the caller-supplied millisecond bound surfaces as the
timeout error, and a completed negotiation that failed surfaces as the proxy
error carrying it, while a completed successful negotiation yields a
ProxySocks transport. -/
theorem c6_new_proxy_spec (username password : String) (ms : Nat) (env : HandshakeEnv) :
    ((FramedSocket.new_proxy username password ms env).2 = AuthMode.noAuth
      ↔ trim_is_empty username = true) ∧
    (env.timedOut = true →
      (FramedSocket.new_proxy username password ms env).1 = .error .timeout) ∧
    (∀ e, env.timedOut = false → env.result = .error e →
      (FramedSocket.new_proxy username password ms env).1 = .error (.proxy e)) ∧
    (∀ f, env.timedOut = false → env.result = .ok f →
      (FramedSocket.new_proxy username password ms env).1 = .ok (.ProxySocks f)) := by
  obtain ⟨t, r⟩ := env
  cases t <;> cases r <;> cases h : trim_is_empty username <;>
    simp_all [FramedSocket.new_proxy]

/-- Witness for C6: a blank username with an elapsed deadline at concrete
inputs yields the timeout error and the unauthenticated handshake. -/
theorem c6_new_proxy_spec_witness :
    (FramedSocket.new_proxy "  " "pw" 5000 ⟨true, .error "refused"⟩).1
      = .error .timeout ∧
    (FramedSocket.new_proxy "  " "pw" 5000 ⟨true, .error "refused"⟩).2
      = AuthMode.noAuth := by
  have h := c6_new_proxy_spec "  " "pw" 5000 ⟨true, .error "refused"⟩
  exact ⟨h.2.1 rfl, h.1.mpr (by decide)⟩

end Udp
